import Mathlib

/-!
Verification of `src/zillow/cli.py` (a Zillow listing scraper) against its
natural-language specification.  The Python module is shallowly embedded:
pure expressions become Lean functions, the filesystem / browser effects
become explicit traces, and exceptions become `Except`.  Every definition
mirrors a specific region of the source file, cited by line number.
-/

namespace Zillow

/-! ## Python value model

Cookie entries come from `json.load`, so attribute values are arbitrary JSON
scalars.  We model the scalars the cookie logic can meet together with
Python truthiness, which drives the `or`-chains on line 45 of the source. -/

inductive PyVal where
  | vNone
  | vStr (s : String)
  | vInt (n : Int)
  | vBool (b : Bool)
deriving DecidableEq, Repr

/-- Python truthiness for the modelled scalars: `None`, `""`, `0` and
`False` are falsy, everything else is truthy. -/
def truthy : PyVal → Bool
  | PyVal.vNone => false
  | PyVal.vStr s => s != ""
  | PyVal.vInt n => n != 0
  | PyVal.vBool b => b

/-- Python `a or b`: returns `a` when `a` is truthy, otherwise `b`. -/
def pyOr (a b : PyVal) : PyVal :=
  if truthy a then a else b

/-! ## Cookie dictionaries (source lines 43-47) -/

/-- A JSON object, as the association list produced by `json.load`. -/
abbrev CookieDict : Type := List (String × PyVal)

/-- Python `d.get(k)`: the value stored at `k`, or `None` when absent. -/
def dictGet (d : CookieDict) (k : String) : PyVal :=
  match d.find? (fun kv => kv.1 == k) with
  | some kv => kv.2
  | none => PyVal.vNone

/-- Python `d[k] = v` on a JSON object (keys are unique): replace the value
bound at `k`, or append the binding when `k` is absent. -/
def dictSet (d : CookieDict) (k : String) (v : PyVal) : CookieDict :=
  if d.any (fun kv => kv.1 == k) then
    d.map (fun kv => if kv.1 == k then (kv.1, v) else kv)
  else
    d ++ [(k, v)]

/-- Source line 45: `name = cookie.get("name") or cookie.get("domain") or "other"`. -/
def cookieName (cookie : CookieDict) : PyVal :=
  pyOr (pyOr (dictGet cookie "name") (dictGet cookie "domain")) (PyVal.vStr "other")

/-- Runtime errors the embedded program can raise. -/
inductive PyErr where
  | nameError (n : String)
deriving DecidableEq, Repr

/-- The runtime binding of the global name `SetCookieParam` in the module.
Its import (source line 14) sits under `if TYPE_CHECKING:` (line 12), a
block that never executes at runtime, so the name is unbound: evaluating it
on line 47 raises `NameError`.  We record the unbound state as `none`. -/
def SetCookieParamBinding : Option (CookieDict → CookieDict) := none

/-- Source lines 44-47: for each entry of the JSON list, compute the
defaulted name, store it under `"name"`, then evaluate
`SetCookieParam(**cookie)` and append the result.  Evaluating the global
name `SetCookieParam` raises `NameError` (see `SetCookieParamBinding`). -/
def loadCookieEntries : List CookieDict → Except PyErr (List CookieDict)
  | [] => Except.ok []
  | cookie :: rest =>
    let name := cookieName cookie
    let cookie2 := dictSet cookie "name" name
    match SetCookieParamBinding with
    | none => Except.error (PyErr.nameError "SetCookieParam")
    | some build =>
      match loadCookieEntries rest with
      | Except.error e => Except.error e
      | Except.ok tail => Except.ok (build cookie2 :: tail)

/-! ## The environment a run observes -/

/-- The parsed content of `cookies.json`, when the file can be opened:
either a JSON list of objects or some non-list JSON document. -/
inductive CookieJson where
  | list (entries : List CookieDict)
  | nonList

/-- One listing container (`article` element) of a rendered results page,
seen through the nine XPath queries of source lines 81-101 and the
for-sale query of line 112.  Each field holds the string results of the
corresponding query on that container; `is_for_sale` counts the elements
matched by `.//span[@class="zsg-icon-for-sale"]`. -/
structure Article where
  raw_address : List String
  raw_city : List String
  raw_state : List String
  raw_postal_code : List String
  raw_price : List String
  raw_info : List String
  raw_broker_name : List String
  url : List String
  raw_title : List String
  is_for_sale : Nat
deriving DecidableEq, Repr

/-- The ambient state a program run observes: the working directory, which
paths exist, the cookie file (or its absence), and, for engine `e` and
iteration `i`, the listing containers found on the page fetched then.
Paths are component lists. -/
structure Env where
  cwd : List String
  fileExists : List String → Bool
  cookieFile : Option CookieJson
  pages : Nat → Nat → List Article

/-! ## Marker-file search (source lines 29-34)

The loop is
  root = pathlib.Path().cwd(); pyproject = None
  while root is not None:
      pyproject = root.joinpath("pyproject.toml")
      if pyproject.exists(): root = None
Note that the body never reassigns `root` to its parent: when the marker
is absent from the working directory the state stops changing and the
loop never exits.  We embed the loop as a step function on its two
variables and take iterates. -/

structure SearchState where
  root : Option (List String)
  pyproject : Option (List String)
deriving DecidableEq, Repr

/-- State of the loop variables before the first iteration. -/
def initSearch (env : Env) : SearchState :=
  SearchState.mk (some env.cwd) none

/-- One iteration of the while loop; a state with `root = none` has exited
the loop and is left unchanged. -/
def searchStep (env : Env) (s : SearchState) : SearchState :=
  match s.root with
  | none => s
  | some r =>
    let p := r ++ ["pyproject.toml"]
    SearchState.mk (if env.fileExists p then none else some r) (some p)

/-- `n` iterations of the while loop. -/
def searchRun (env : Env) : Nat → SearchState → SearchState
  | 0, s => s
  | n + 1, s => searchRun env n (searchStep env s)

/-- The limit of the marker-search loop: `some p` when the loop exits with
`pyproject = p`, and `none` when it never exits.  The loop checks only
`cwd/pyproject.toml`: when that file exists the first iteration sets
`root = None` and the loop exits; otherwise no iteration changes `root`
and the loop diverges.  Lemmas `searchRun_exits_of_marker` and
`searchRun_stuck_of_no_marker` below justify this closed form. -/
def markerSearch (env : Env) : Option (List String) :=
  if env.fileExists (env.cwd ++ ["pyproject.toml"]) then
    some (env.cwd ++ ["pyproject.toml"])
  else
    none

/-! ## Cookie phase (source lines 36-51) -/

/-- Source line 50: the diagnostic printed when opening the cookie file
raises `IOError`. -/
def cookieMissingMsg : String :=
  "Cookie file not found. Please log in and save the cookies to continue"

/-- Source lines 40-51: open `cookies.json`; on `IOError` print the
diagnostic and keep zero cookies; on success keep zero cookies unless the
document is a list, in which case run `loadCookieEntries`.  Returns the
printed lines and the outcome. -/
def cookiePhase (env : Env) : List String × Except PyErr (List CookieDict) :=
  match env.cookieFile with
  | none => ([cookieMissingMsg], Except.ok [])
  | some CookieJson.nonList => ([], Except.ok [])
  | some (CookieJson.list entries) => ([], loadCookieEntries entries)

/-! ## URL construction (source lines 53-61) -/

/-- Source lines 53-61: choose the navigation URL from `filter_request`.
The default branch concatenates two adjacent f-string literals and ends in
a space, exactly as in the source. -/
def buildUrl (zip_code : String) (filter_request : Option String) : String :=
  if filter_request = some "newest" then
    "https://www.zillow.com/homes/for_sale/" ++ zip_code ++ "/0_singlestory/days_sort"
  else if filter_request = some "cheapest" then
    "https://www.zillow.com/homes/for_sale/" ++ zip_code ++ "/0_singlestory/pricea_sort/"
  else
    "https://www.zillow.com/homes/for_sale/" ++ zip_code ++
      "_rb/?fromHomePage=true&shouldFireSellPageImplicitClaimGA=false&fromHomePageTab=buy "

/-! ## Field extraction (source lines 77-125) -/

/-- Python `sep.join(xs)`. -/
def pyJoin (sep : String) (xs : List String) : String :=
  String.intercalate sep xs

/-- Python `s.split()` with no argument: split on runs of whitespace,
discarding empty fragments. -/
def pySplitWS (s : String) : List String :=
  (s.split Char.isWhitespace).filter (fun t => t != "")

/-- One record, with the fields built on source lines 103-111 and collected
into the dict on lines 113-123.  Fields guarded by `if raw else None` are
`Option`; `facts_and_features` (line 108) is unguarded and always a string. -/
structure PropertyRecord where
  address : Option String
  city : Option String
  state : Option String
  postal_code : Option String
  price : Option String
  facts_and_features : String
  real_estate_provider : Option String
  url : Option String
  title : Option String
deriving DecidableEq, Repr

/-- Source lines 103-123: shape one container into a record.
`address` joins the street-address texts and collapses whitespace;
`city`, `state`, `postal_code`, `price` and the broker concatenate and
strip; `facts_and_features` collapses whitespace and replaces U+00B7 with
a comma; `url` prepends the site origin to the first overlay-link href
unconditionally; `title` concatenates without stripping. -/
def extractRecord (a : Article) : PropertyRecord :=
  PropertyRecord.mk
    (if a.raw_address.isEmpty then none
     else some (pyJoin " " (pySplitWS (pyJoin " " a.raw_address))))
    (if a.raw_city.isEmpty then none else some (pyJoin "" a.raw_city).trim)
    (if a.raw_state.isEmpty then none else some (pyJoin "" a.raw_state).trim)
    (if a.raw_postal_code.isEmpty then none
     else some (pyJoin "" a.raw_postal_code).trim)
    (if a.raw_price.isEmpty then none else some (pyJoin "" a.raw_price).trim)
    ((pyJoin " " (pySplitWS (pyJoin " " a.raw_info))).replace "·" ",")
    (if a.raw_broker_name.isEmpty then none
     else some (pyJoin "" a.raw_broker_name).trim)
    (match a.url with
     | [] => none
     | h :: _ => some ("https://www.zillow.com" ++ h))
    (if a.raw_title.isEmpty then none else some (pyJoin "" a.raw_title))

/-- Source lines 77-125: walk the containers of one page in order, extract
each record, and append it to the accumulator exactly when the container
matched a for-sale marker (line 124). -/
def extractArticles (articles : List Article) : List PropertyRecord :=
  articles.foldl
    (fun acc a => if 0 < a.is_for_sale then acc ++ [extractRecord a] else acc) []

/-! ## Effect vocabulary -/

/-- A filesystem mutation performed by the run.  `mkdir` records the full
component path of the directory created; `writeFile` records the name of a
file written in the working directory (screenshots on source line 70, the
CSV on line 137). -/
inductive FsWrite where
  | mkdir (p : List String)
  | writeFile (name : String)
deriving DecidableEq, Repr

/-- A browser operation issued on a browsing context: registering the
cookie list (source line 66) or navigating to a URL (line 68). -/
inductive BrowserOp where
  | addCookies (cs : List CookieDict)
  | goto (u : String)
deriving DecidableEq, Repr

/-- Source lines 18-20: the two CLI inputs. -/
structure InputData where
  zip_code : String
  sort : String
deriving DecidableEq, Repr

/-! ## The `parse` coroutine (source lines 23-127)

The embedding returns `none` when the marker-search loop diverges, and
otherwise the filesystem writes, printed diagnostics, browser operations
and the outcome: the accumulated records, or the exception that aborted
the call.  The raw-markup dump of `print(page_data)` (line 72) prints data
the embedding views only through its XPath results, so `printed` carries
the other three messages of the function. -/

structure ParseOut where
  trace : List FsWrite
  printed : List String
  ops : List BrowserOp
  result : Except PyErr (List PropertyRecord)

/-- The records one engine accumulates over its five iterations
(source lines 63-125): iteration `i` contributes the extraction of the
containers on the page fetched then, in order. -/
def engineRecords (env : Env) (engine : Nat) : List PropertyRecord :=
  (List.range 5).foldl (fun acc i => acc ++ extractArticles (env.pages engine i)) []

/-- The embedding of `parse`.  When the marker search terminates the
function creates `<root>/.build` (line 38), loads cookies (lines 40-51) -
aborting with the pending exception if loading raised - then runs five
iterations (lines 64-125): each registers the cookies, navigates to the
URL chosen from `filter_request`, writes `example-<i>.png` and extracts
records. -/
def parse (env : Env) (zip_code : String) (filter_request : Option String)
    (engine : Nat) : Option ParseOut :=
  match markerSearch env with
  | none => none
  | some pyproject =>
    let buildDir := pyproject.dropLast ++ [".build"]
    let phase := cookiePhase env
    match phase.2 with
    | Except.error e =>
      some (ParseOut.mk [FsWrite.mkdir buildDir] phase.1 [] (Except.error e))
    | Except.ok cookie_data_list =>
      let u := buildUrl zip_code filter_request
      some (ParseOut.mk
        (FsWrite.mkdir buildDir ::
          (List.range 5).map (fun i => FsWrite.writeFile ("example-" ++ toString i ++ ".png")))
        (phase.1 ++ (List.range 5).map (fun _ => "Fetching data for " ++ zip_code))
        ((List.range 5).foldl
          (fun acc _ => acc ++ [BrowserOp.addCookies cookie_data_list, BrowserOp.goto u]) [])
        (Except.ok (engineRecords env engine)))

/-! ## Serialization (source lines 137-152) -/

/-- Source lines 138-148: the fixed CSV column order. -/
def fieldnames : List String :=
  ["title", "address", "city", "state", "postal_code", "price",
   "facts and features", "real estate provider", "url"]

/-- One CSV row in `fieldnames` order; a `None` field serializes as an
empty cell. -/
def recordRow (r : PropertyRecord) : List String :=
  [r.title.getD "", r.address.getD "", r.city.getD "", r.state.getD "",
   r.postal_code.getD "", r.price.getD "", r.facts_and_features,
   r.real_estate_provider.getD "", r.url.getD ""]

/-- The logical content written to the CSV file: the header row followed
by one row per record (lines 150-152). -/
def serializeCsv (records : List PropertyRecord) : List (List String) :=
  fieldnames :: records.map recordRow

/-- The output file name, `properties-<zipcode>.csv` (line 137). -/
def csvName (zip_code : String) : String :=
  "properties-" ++ zip_code ++ ".csv"

/-! ## The engine loop (source lines 130-154) -/

/-- The observable result of a whole `parse_zillow_pages` run: traces as in
`ParseOut`, plus `csv`, the content the output file holds after the run
(`none` when it was never written), and whether the run finished normally
or aborted with an exception. -/
structure RunAcc where
  trace : List FsWrite
  printed : List String
  ops : List BrowserOp
  csv : Option (List (List String))
  outcome : Except PyErr Unit

/-- The empty accumulator before the first engine. -/
def initAcc : RunAcc :=
  RunAcc.mk [] [] [] none (Except.ok ())

/-- Source lines 132-154: iterate over the remaining engines.  Each engine
runs `parse` with `filter_request` left at its default `None` (the call on
line 135 passes only the browser and the input data); on success the file
`properties-<zip>.csv` is opened with mode `wb` - overwriting any earlier
content - and receives exactly the records of this engine; on an exception the
browser is closed and the exception propagates, ending the run. -/
def runEngines (env : Env) (input_data : InputData) :
    List Nat → RunAcc → Option RunAcc
  | [], acc => some acc
  | engine :: rest, acc =>
    match parse env input_data.zip_code none engine with
    | none => none
    | some p =>
      match p.result with
      | Except.error e =>
        some (RunAcc.mk (acc.trace ++ p.trace) (acc.printed ++ p.printed)
          (acc.ops ++ p.ops) acc.csv (Except.error e))
      | Except.ok records =>
        runEngines env input_data rest
          (RunAcc.mk
            (acc.trace ++ p.trace ++ [FsWrite.writeFile (csvName input_data.zip_code)])
            (acc.printed ++ p.printed ++ ["Writing data to output file"])
            (acc.ops ++ p.ops)
            (some (serializeCsv records))
            (Except.ok ()))

/-- Source lines 130-154: the three browser engines, in order. -/
def parse_zillow_pages (env : Env) (input_data : InputData) : Option RunAcc :=
  runEngines env input_data [0, 1, 2] initAcc

/-- The records extracted across every pass of a run: all three engines,
five iterations each (what the spec calls the fifteen passes). -/
def allPassRecords (env : Env) : List PropertyRecord :=
  (List.range 3).foldl (fun acc e => acc ++ engineRecords env e) []

/-! ## CLI argument handling (source lines 157-177)

`main` builds an `argparse` parser with a required positional `zipcode`
and an optional positional `sort` with `nargs` set to `?`, default
`"homes for you"`, and `choices` limited to `newest` and `cheapest`.  The
embedding models CPython 3.11 `argparse` on option-free argument vectors.
A usage error exits with status 2.  Crucially, when the optional
positional is absent, `_get_values` substitutes the default and - because
the default is a string - validates it against `choices`
(argparse.py lines 2473-2481); the default `"homes for you"` is not a
member of `choices`, so that validation fails. -/

/-- A usage error: the process exit status and the parser message. -/
structure UsageError where
  code : Nat
  msg : String
deriving DecidableEq, Repr

/-- The closed choice set of the `sort` argument (source line 173). -/
def sortChoices : List String :=
  ["newest", "cheapest"]

/-- The default of the `sort` argument (source line 172). -/
def sortDefault : String :=
  "homes for you"

/-- The `argparse` behaviour of the parser built on source lines 164-175,
on an argument vector of plain positionals. -/
def parseArgsModel (argv : List String) : Except UsageError InputData :=
  match argv with
  | [] =>
    Except.error (UsageError.mk 2 "the following arguments are required: zipcode")
  | [zipcode] =>
    if sortDefault ∈ sortChoices then
      Except.ok (InputData.mk zipcode sortDefault)
    else
      Except.error (UsageError.mk 2
        ("argument sort: invalid choice: " ++ sortDefault ++
          " (choose from newest, cheapest)"))
  | [zipcode, sort] =>
    if sort ∈ sortChoices then
      Except.ok (InputData.mk zipcode sort)
    else
      Except.error (UsageError.mk 2
        ("argument sort: invalid choice: " ++ sort ++ " (choose from newest, cheapest)"))
  | _ =>
    Except.error (UsageError.mk 2 "unrecognized arguments")

/-- Source lines 157-177: parse the arguments into `InputData` and run
`parse_zillow_pages` on it.  The `sort` field is stored in the input
record but `parse_zillow_pages` never forwards it (line 135). -/
def main (env : Env) (argv : List String) : Except UsageError (Option RunAcc) :=
  match parseArgsModel argv with
  | Except.error e => Except.error e
  | Except.ok input_data => Except.ok (parse_zillow_pages env input_data)

/-! ## Justification of the closed form `markerSearch` -/

/-- When `cwd/pyproject.toml` exists, the first iteration of the marker
loop clears `root` and records the marker path, so the loop exits with
exactly the value `markerSearch` returns. -/
theorem searchRun_exits_of_marker (env : Env)
    (h : env.fileExists (env.cwd ++ ["pyproject.toml"]) = true) :
    searchRun env 1 (initSearch env) =
      SearchState.mk none (some (env.cwd ++ ["pyproject.toml"])) := by
  simp [searchRun, searchStep, initSearch, h]

/-- An iteration started from a live state over `cwd` keeps `root = cwd`
when the marker is absent there: the loop body never moves to a parent
directory. -/
theorem searchStep_keeps_root (env : Env)
    (h : env.fileExists (env.cwd ++ ["pyproject.toml"]) = false)
    (s : SearchState) (hs : s.root = some env.cwd) :
    (searchStep env s).root = some env.cwd := by
  cases s with
  | mk root pyproject =>
    cases root with
    | none => cases hs
    | some r =>
      have hr : r = env.cwd := by
        injection hs
      subst hr
      simp [searchStep, h]

/-- When the marker is absent from the working directory, no number of
iterations exits the loop: `root` stays `some cwd` forever. -/
theorem searchRun_stuck_of_no_marker (env : Env)
    (h : env.fileExists (env.cwd ++ ["pyproject.toml"]) = false) :
    ∀ n s, s.root = some env.cwd → (searchRun env n s).root = some env.cwd := by
  intro n
  induction n with
  | zero => intro s hs; exact hs
  | succ k ih =>
    intro s hs
    exact ih (searchStep env s) (searchStep_keeps_root env h s hs)

/-! ## Claim theorems -/

/-- Environment for C3: a working directory containing no
`pyproject.toml` (in fact no marker anywhere on the filesystem). -/
def c3Env : Env :=
  Env.mk ["home", "user"] (fun _ => false) none (fun _ _ => [])

/-- C3: the claim says the marker search terminates for every working
directory, skipping cookie loading when no marker is found.  It does not:
the loop body never replaces `root` by its parent directory, so from a
working directory without `pyproject.toml` every iterate of the loop
still has `root = some cwd` - the loop never exits, and the whole run
diverges instead of continuing without cookies. -/
theorem c3_marker_search_diverges :
    (∀ n, (searchRun c3Env n (initSearch c3Env)).root = some c3Env.cwd) ∧
    markerSearch c3Env = none ∧
    parse_zillow_pages c3Env (InputData.mk "90210" "newest") = none := by
  refine ⟨fun n => ?_, rfl, rfl⟩
  exact searchRun_stuck_of_no_marker c3Env rfl n (initSearch c3Env) rfl

/-- C4: missing zipcode and an unrecognized sort token are usage errors
(exit status 2), as claimed; but a zipcode alone is NOT accepted:
argparse substitutes the default `"homes for you"` for the absent
optional positional and validates it against the choice set, which
rejects it, so the zipcode-alone invocation also exits with status 2. -/
theorem c4_default_sort_rejected_by_choices :
    parseArgsModel [] =
      Except.error (UsageError.mk 2 "the following arguments are required: zipcode") ∧
    parseArgsModel ["90210", "oldest"] =
      Except.error (UsageError.mk 2
        "argument sort: invalid choice: oldest (choose from newest, cheapest)") ∧
    parseArgsModel ["90210"] =
      Except.error (UsageError.mk 2
        "argument sort: invalid choice: homes for you (choose from newest, cheapest)") ∧
    sortDefault ∉ sortChoices := by
  refine ⟨rfl, rfl, rfl, ?_⟩
  decide

/-- Environment for C6: the cookie file exists and holds a list with one
entry that has a `domain` but no `name`. -/
def c6Env : Env :=
  Env.mk ["home"] (fun _ => true)
    (some (CookieJson.list [[("domain", PyVal.vStr "zillow.com")]]))
    (fun _ _ => [])

/-- The run result for the C6 environment. -/
def c6Res : RunAcc :=
  (parse_zillow_pages c6Env (InputData.mk "90210" "newest")).getD initAcc

/-- C6: the name-defaulting expression does compute `"other"` for an entry
lacking both `name` and `domain`, and the domain value for an entry with
only a `domain`; but no entry is ever LOADED with that name: the next
statement evaluates the global `SetCookieParam`, whose import is guarded
by `if TYPE_CHECKING:` and so is unbound at runtime, raising `NameError`
and aborting the run before any cookie is registered. -/
theorem c6_cookie_name_defaults_but_loading_raises :
    cookieName [] = PyVal.vStr "other" ∧
    cookieName [("domain", PyVal.vStr "zillow.com")] = PyVal.vStr "zillow.com" ∧
    loadCookieEntries [([] : CookieDict)] =
      Except.error (PyErr.nameError "SetCookieParam") ∧
    parse_zillow_pages c6Env (InputData.mk "90210" "newest") = some c6Res ∧
    c6Res.outcome = Except.error (PyErr.nameError "SetCookieParam") ∧
    c6Res.csv = none := by
  exact ⟨rfl, rfl, rfl, rfl, rfl, rfl⟩

/-- A cookie entry whose `name` is present but empty and whose `domain` is
truthy. -/
def c10FalsyName : CookieDict :=
  [("name", PyVal.vStr ""), ("domain", PyVal.vStr "zillow.com")]

/-- A cookie entry whose `name` and `domain` are both present but empty. -/
def c10BothFalsy : CookieDict :=
  [("name", PyVal.vStr ""), ("domain", PyVal.vStr "")]

/-- C10: the `or`-chain indeed treats a falsy `name` like a missing one -
the computed name falls back to the domain value, or to `"other"` when
the domain is also missing or falsy; but, as with C6, no entry is ever
loaded with that name, because evaluating `SetCookieParam` raises
`NameError` at runtime. -/
theorem c10_falsy_name_defaults_but_loading_raises :
    cookieName c10FalsyName = PyVal.vStr "zillow.com" ∧
    cookieName c10BothFalsy = PyVal.vStr "other" ∧
    cookieName [("name", PyVal.vStr "")] = PyVal.vStr "other" ∧
    loadCookieEntries [c10FalsyName] =
      Except.error (PyErr.nameError "SetCookieParam") := by
  exact ⟨rfl, rfl, rfl, rfl⟩

/-- C5: a listing container that matched no for-sale marker contributes no
record to the output list, wherever it sits among the containers and
however many of its other fields are populated: extraction over the page
is unchanged by deleting that container. -/
theorem c5_no_for_sale_marker_no_record (xs ys : List Article) (a : Article)
    (h : a.is_for_sale = 0) :
    extractArticles (xs ++ a :: ys) = extractArticles (xs ++ ys) := by
  simp [extractArticles, List.foldl_append, h]

/-- A container with every other field populated but no for-sale marker. -/
def c5Article : Article :=
  Article.mk ["123", "Main St"] ["Beverly Hills"] ["CA"] ["90210"]
    ["$1,000,000"] ["3 bds", "·", "2 ba"] ["Acme Realty"]
    ["/homedetails/123-main-st"] ["Charming bungalow"] 0

/-- Witness for C5: a fully populated container without the marker is
dropped from a concrete page. -/
theorem c5_witness :
    c5Article.is_for_sale = 0 ∧
    extractArticles ([] ++ c5Article :: []) = extractArticles ([] ++ []) := by
  exact ⟨rfl, c5_no_for_sale_marker_no_record [] [] c5Article rfl⟩

/-- A container whose only overlay link is already an absolute URL. -/
def c8AbsArticle : Article :=
  Article.mk [] [] [] [] [] [] [] ["https://www.zillow.com/homedetails/42"] [] 1

/-- Counterexample to C8: on a container whose first overlay-link href is
already absolute, the code still prepends the site origin, producing a
doubled-origin string rather than leaving the absolute URL usable. -/
theorem c8_counterexample :
    (extractRecord c8AbsArticle).url =
      some "https://www.zillow.comhttps://www.zillow.com/homedetails/42" ∧
    (extractRecord c8AbsArticle).url ≠ some "https://www.zillow.com/homedetails/42" := by
  refine ⟨rfl, ?_⟩
  decide

/-- C8 as amended: the url field of the record prepends
`https://www.zillow.com` to the first overlay-link href of the container
unconditionally - which equals origin-resolution for relative hrefs but
mangles absolute ones - and is missing when the container has no overlay
link. -/
theorem c8_url_origin_unconditional (a : Article) :
    (extractRecord a).url = a.url.head?.map (fun h => "https://www.zillow.com" ++ h) := by
  cases h : a.url with
  | nil => simp [extractRecord, h]
  | cons x xs => simp [extractRecord, h]

/-- A container whose only overlay link is a relative href. -/
def c8RelArticle : Article :=
  Article.mk [] [] [] [] [] [] [] ["/homedetails/7-elm-st"] [] 1

/-- Witness for C8 as amended: on a concrete container with a relative
href the url field is exactly the origin concatenated with the href. -/
theorem c8_witness :
    (extractRecord c8RelArticle).url =
      (c8RelArticle.url.head?).map (fun h => "https://www.zillow.com" ++ h) := by
  exact c8_url_origin_unconditional c8RelArticle

/-- Environment for C2: marker present, no cookie file, pages empty.  The
command line carries the sort token `newest`. -/
def c2Env : Env :=
  Env.mk ["home"] (fun _ => true) none (fun _ _ => [])

/-- The run result for the C2 environment. -/
def c2Res : RunAcc :=
  (parse_zillow_pages c2Env (InputData.mk "90210" "newest")).getD initAcc

/-- C2: the CLI accepts the sort token `newest`, but the run never
navigates to the newest-sort template: `parse_zillow_pages` calls `parse`
without forwarding the sort (source line 135), so `filter_request` keeps
its default `None` and all fifteen navigations use the default template,
which differs from the newest-sort template.  The URL therefore does not
depend on the command-line sort mode, contradicting the claim. -/
theorem c2_sort_mode_never_reaches_url :
    main c2Env ["90210", "newest"] = Except.ok (some c2Res) ∧
    c2Res.ops =
      (List.replicate 15 [BrowserOp.addCookies [], BrowserOp.goto (buildUrl "90210" none)]).flatten ∧
    BrowserOp.goto (buildUrl "90210" (some "newest")) ∉ c2Res.ops ∧
    buildUrl "90210" none ≠ buildUrl "90210" (some "newest") := by
  refine ⟨rfl, by decide, by decide, by decide⟩

/-- A for-sale listing container used in the C1 counterexample. -/
def c1Article : Article :=
  Article.mk ["1", "First St"] ["Springfield"] ["IL"] ["62701"] ["$200,000"]
    ["2 bds"] ["Shelby Realty"] ["/homedetails/1-first-st"] ["Starter home"] 1

/-- Environment for C1: the first page of the first engine holds one for-sale
container; every other page is empty. -/
def c1Env : Env :=
  Env.mk ["home"] (fun _ => true) none
    (fun e i => if e == 0 && i == 0 then [c1Article] else [])

/-- The run result for the C1 environment. -/
def c1Res : RunAcc :=
  (parse_zillow_pages c1Env (InputData.mk "62701" "newest")).getD initAcc

/-- Counterexample to C1: a complete run in which the first engine
extracted one record and the later engines none.  The CSV file is
reopened with mode `wb` for every engine, so after the run it holds only
the header - not the union of the records of all fifteen passes, which
contains the record of the first engine. -/
theorem c1_counterexample :
    parse_zillow_pages c1Env (InputData.mk "62701" "newest") = some c1Res ∧
    c1Res.outcome = Except.ok () ∧
    allPassRecords c1Env = [extractRecord c1Article] ∧
    c1Res.csv = some (serializeCsv []) ∧
    c1Res.csv ≠ some (serializeCsv (allPassRecords c1Env)) := by
  refine ⟨rfl, rfl, rfl, rfl, by decide⟩

/-- C1 as amended: after a complete (non-aborted) run, the CSV file
contains exactly the header and the records accumulated by the LAST
engine and its five iterations; each write by an engine overwrites the
rows of the previous one. -/
theorem c1_csv_contains_last_engine_records (env : Env) (input_data : InputData)
    (res : RunAcc) (hres : parse_zillow_pages env input_data = some res)
    (hok : res.outcome = Except.ok ()) :
    res.csv = some (serializeCsv (engineRecords env 2)) := by
  cases hmk : markerSearch env with
  | none =>
    simp only [parse_zillow_pages, runEngines, parse, hmk] at hres
    exact Option.noConfusion hres
  | some p =>
    rcases hcp : cookiePhase env with ⟨msgs, cres⟩
    cases cres with
    | error e =>
      simp only [parse_zillow_pages, runEngines, parse, hmk, hcp] at hres
      injection hres with h
      subst h
      simp at hok
    | ok cookies =>
      simp only [parse_zillow_pages, runEngines, parse, hmk, hcp] at hres
      injection hres with h
      subst h
      rfl

/-- Witness for the amended C1 at the concrete C1 environment. -/
theorem c1_witness :
    c1Res.csv = some (serializeCsv (engineRecords c1Env 2)) :=
  c1_csv_contains_last_engine_records c1Env (InputData.mk "62701" "newest") c1Res rfl rfl

/-- C7: when opening the cookie file raises `IOError`, the run prints the
fixed diagnostic, every browsing context receives the empty cookie list,
and the run finishes normally - fifteen context set-ups and navigations
happen and the outcome is not an exception. -/
theorem c7_cookie_file_absent_nonfatal (env : Env) (input_data : InputData)
    (res : RunAcc) (hres : parse_zillow_pages env input_data = some res)
    (hcf : env.cookieFile = none) :
    res.outcome = Except.ok () ∧
    cookieMissingMsg ∈ res.printed ∧
    res.ops =
      (List.replicate 15
        [BrowserOp.addCookies [], BrowserOp.goto (buildUrl input_data.zip_code none)]).flatten := by
  have hcp : cookiePhase env = ([cookieMissingMsg], Except.ok []) := by
    simp [cookiePhase, hcf]
  cases hmk : markerSearch env with
  | none =>
    simp only [parse_zillow_pages, runEngines, parse, hmk] at hres
    exact Option.noConfusion hres
  | some p =>
    simp only [parse_zillow_pages, runEngines, parse, hmk, hcp] at hres
    injection hres with h
    subst h
    refine ⟨rfl, ?_, ?_⟩
    · simp
    · rfl

/-- Environment for the C7 witness: marker present, cookie file absent. -/
def c7Env : Env :=
  Env.mk ["casa"] (fun _ => true) none (fun _ _ => [])

/-- The run result for the C7 environment. -/
def c7Res : RunAcc :=
  (parse_zillow_pages c7Env (InputData.mk "10001" "cheapest")).getD initAcc

/-- Witness for C7 at a concrete environment without a cookie file. -/
theorem c7_witness :
    c7Res.outcome = Except.ok () ∧
    cookieMissingMsg ∈ c7Res.printed ∧
    c7Res.ops =
      (List.replicate 15
        [BrowserOp.addCookies [], BrowserOp.goto (buildUrl "10001" none)]).flatten :=
  c7_cookie_file_absent_nonfatal c7Env (InputData.mk "10001" "cheapest") c7Res rfl rfl

/-- C9: any run that returns (so the marker was found) creates
`<root>/.build` - the mkdir effect is in the trace whatever the cookie
file holds - and every filesystem mutation of the run is that directory
creation, one of the five screenshot files, or the CSV output file. -/
theorem c9_filesystem_frame (env : Env) (input_data : InputData)
    (res : RunAcc) (hres : parse_zillow_pages env input_data = some res) :
    FsWrite.mkdir (env.cwd ++ [".build"]) ∈ res.trace ∧
    ∀ w ∈ res.trace,
      w = FsWrite.mkdir (env.cwd ++ [".build"]) ∨
      (∃ i, i < 5 ∧ w = FsWrite.writeFile ("example-" ++ toString i ++ ".png")) ∨
      w = FsWrite.writeFile (csvName input_data.zip_code) := by
  cases hmk : markerSearch env with
  | none =>
    simp only [parse_zillow_pages, runEngines, parse, hmk] at hres
    exact Option.noConfusion hres
  | some p =>
    have hp : p = env.cwd ++ ["pyproject.toml"] := by
      rw [markerSearch] at hmk
      split at hmk
      · injection hmk with h
        exact h.symm
      · exact Option.noConfusion hmk
    subst hp
    rcases hcp : cookiePhase env with ⟨msgs, cres⟩
    cases cres with
    | error e =>
      simp only [parse_zillow_pages, runEngines, parse, hmk, hcp] at hres
      injection hres with h
      subst h
      constructor
      · simp [initAcc, List.dropLast_concat]
      · intro w hw
        simp [initAcc, List.dropLast_concat] at hw
        subst hw
        left
        rfl
    | ok cookies =>
      simp only [parse_zillow_pages, runEngines, parse, hmk, hcp] at hres
      injection hres with h
      subst h
      constructor
      · simp [initAcc, List.dropLast_concat]
      · intro w hw
        simp [initAcc, List.dropLast_concat, List.mem_append, List.mem_map,
          List.mem_range] at hw
        aesop

/-- A for-sale container used in the C9 witness environment. -/
def c9Article : Article :=
  Article.mk ["9", "Ninth Ave"] ["Atlanta"] ["GA"] ["30301"] ["$450,000"]
    ["4 bds"] ["Peach Realty"] ["/homedetails/9-ninth-ave"] ["Corner lot"] 1

/-- Environment for the C9 witness: marker present, cookie file absent,
one for-sale container on one page. -/
def c9Env : Env :=
  Env.mk ["opt", "proj"] (fun _ => true) none
    (fun e i => if e == 2 && i == 4 then [c9Article] else [])

/-- The run result for the C9 environment. -/
def c9Res : RunAcc :=
  (parse_zillow_pages c9Env (InputData.mk "30301" "newest")).getD initAcc

/-- Witness for C9 at a concrete environment. -/
theorem c9_witness :
    FsWrite.mkdir (c9Env.cwd ++ [".build"]) ∈ c9Res.trace ∧
    ∀ w ∈ c9Res.trace,
      w = FsWrite.mkdir (c9Env.cwd ++ [".build"]) ∨
      (∃ i, i < 5 ∧ w = FsWrite.writeFile ("example-" ++ toString i ++ ".png")) ∨
      w = FsWrite.writeFile (csvName "30301") :=
  c9_filesystem_frame c9Env (InputData.mk "30301" "newest") c9Res rfl

end Zillow
